import Mathlib

/-!
# Verification of the content-creation garment-swap core

Shallow embedding of the request-orchestration and prompt-assembly pipeline of
the `content_creation` repository (files `prompt_generator.py`,
`gemini_client.py`, `app.py`, `config.py`), together with theorems settling
the frozen claims C1..C10 about it.

Conventions of the embedding:
* Python strings are Lean `String`s; where the kernel must evaluate the
  Python string operations (`strip`, `split("\n")`, `startswith`, `len`,
  slicing) they are defined structurally over `List Char` — the `.data` of a
  `String` — with Python's semantics.
* Machine integers are `Nat`; Python float arithmetic in the image-resize
  ratios (`int(w * (maxDim / m))`) is modelled exactly as the rational floor
  `w * maxDim / m` in `Nat` division; the float `retry_delay` is a `ℚ`.
* Fallible/raising code is modelled by explicit outcome types: a Python
  function that may `return None` or `raise` becomes a total Lean function
  into a tagged outcome type.
-/

set_option autoImplicit false
set_option maxRecDepth 8000

namespace ContentCreation

/-! ## Prompt generator — `src/prompt_generator.py`, `generate_garment_swap_prompt` -/

/-- `base_instruction` literal of `generate_garment_swap_prompt` (lines 37-39). -/
def base_instruction : String :=
  "TASK: You have images - (1) a photo of a model, (2) a flat-lay photo of a garment.\nReplace ONLY the clothing on the model with the garment from the flat-lay image.\nEverything else in the image must remain identical."

/-- The face-preservation line (line 45). -/
def face_line : String :=
  "DO NOT CHANGE: The model's face - keep it identical (same features, expression, skin tone, hair, makeup)."

/-- The unconditional pose-preservation line (line 47). -/
def pose_line : String :=
  "DO NOT CHANGE: The model's pose, body, proportions, posture, position, or stance."

/-- The lighting-preservation line (line 50). -/
def lighting_line : String :=
  "DO NOT CHANGE: The lighting - keep it identical (same direction, intensity, shadows, highlights)."

/-- The background-preservation line (line 53). -/
def background_line : String :=
  "DO NOT CHANGE: The background - keep it identical."

/-- `garment_instruction` literal (lines 56-63). -/
def garment_instruction : String :=
  "ONLY CHANGE: The garment. Replace the model's current clothing with the garment from the flat-lay image.\n\nCRITICAL: The garment from the flat-lay must NOT be modified in any way when transferring to the model.\n- Use the garment EXACTLY as shown in the flat-lay image\n- Same color, same texture, same patterns, same knit structure, same buttons/details\n- Do not alter, adjust, or modify the garment's appearance\n- Do not change colors, textures, or patterns\n- The garment should fit the model's body naturally, but its visual appearance (color, texture, patterns, details) must match the flat-lay image exactly without any modifications."

/-- The `preservation_lines` list built at lines 42-53: the face line if
`preserve_face`, then always the pose line, then the lighting line if
`preserve_lighting`, then the background line if `preserve_background`. -/
def preservation_lines (preserve_face preserve_lighting preserve_background : Bool) :
    List String :=
  (if preserve_face then [face_line] else []) ++ [pose_line]
    ++ (if preserve_lighting then [lighting_line] else [])
    ++ (if preserve_background then [background_line] else [])

/-- The `prompt_lines` list built at lines 66-74. -/
def prompt_lines (preserve_face preserve_lighting preserve_background : Bool) :
    List String :=
  [base_instruction, "", "PRESERVE (keep identical):"]
    ++ preservation_lines preserve_face preserve_lighting preserve_background
    ++ ["", "REPLACE (change this only):", garment_instruction, "",
        "Output: Professional fashion photography quality, sharp focus."]

/-- `generate_garment_swap_prompt` (lines 12-79): the prompt lines joined with
newlines.  The `garment_description` parameter of the Python function is never
read by its body, so it is omitted here. -/
def generate_garment_swap_prompt
    (preserve_face preserve_lighting preserve_background : Bool) : String :=
  String.intercalate "\n" (prompt_lines preserve_face preserve_lighting preserve_background)

/-- C7: for all 2³ combinations of the preserve flags, the prompt (the
newline-join of `prompt_lines`) carries the face line iff `preserve_face`, the
lighting line iff `preserve_lighting`, and the background line iff
`preserve_background`. -/
theorem preserve_flags_toggle :
    ∀ pf pl pb : Bool,
      generate_garment_swap_prompt pf pl pb
          = String.intercalate "\n" (prompt_lines pf pl pb) ∧
        (face_line ∈ prompt_lines pf pl pb ↔ pf = true) ∧
        (lighting_line ∈ prompt_lines pf pl pb ↔ pl = true) ∧
        (background_line ∈ prompt_lines pf pl pb ↔ pb = true) := by
  intro pf pl pb
  refine ⟨rfl, ?_, ?_, ?_⟩ <;> cases pf <;> cases pl <;> cases pb <;> decide

/-- C9: the pose-preservation line is in the prompt for every combination of
the three preserve flags — it is appended unconditionally. -/
theorem pose_line_unconditional :
    ∀ pf pl pb : Bool, pose_line ∈ prompt_lines pf pl pb := by
  decide

/-! ## The retry loop of `swap_garment` — `src/gemini_client.py` lines 76-102

The loop `for attempt in range(1, max_retries + 1)` calls `_perform_swap`
once per iteration.  Each call either returns the output path (truthy),
returns `None`, raises `APIError`, or raises some other exception; that
per-attempt behavior is the loop's only input we model, as a function from
the attempt index (1-based) to an `AttemptResult`. -/

/-- Observable behavior of one `_perform_swap` call. Exception payloads are
abstracted to `Nat` identifiers. -/
inductive AttemptResult where
  | ok : AttemptResult
  | empty : AttemptResult
  | apiError (e : Nat) : AttemptResult
  | otherError (e : Nat) : AttemptResult
deriving DecidableEq

/-- How `swap_garment` terminates: returns the path, returns `None` after the
loop, re-raises the last `APIError`, or re-raises another exception. -/
inductive SwapOutcome where
  | success : SwapOutcome
  | noResult : SwapOutcome
  | raisedAPI (e : Nat) : SwapOutcome
  | raisedOther (e : Nat) : SwapOutcome
deriving DecidableEq

/-- Trace of one `swap_garment` run: its outcome, how many `_perform_swap`
calls were made, and the `time.sleep` durations in order. -/
structure SwapTrace where
  outcome : SwapOutcome
  calls : Nat
  sleeps : List ℚ
deriving DecidableEq

/-- The loop body from `attempt` on, with `fuel` iterations left
(`fuel = maxRetries - attempt + 1` at every call).  Mirrors lines 77-102:
a truthy result returns it; a `None` result falls through to the next
iteration (no sleep); `APIError` sleeps `retry_delay * attempt` and retries
unless `attempt` is the last allowed one, in which case it re-raises;
any other exception re-raises at once; loop exhaustion returns `None`. -/
def swapGo (maxRetries : Nat) (retryDelay : ℚ) (behavior : Nat → AttemptResult) :
    Nat → Nat → SwapTrace
  | 0, _ => ⟨.noResult, 0, []⟩
  | fuel + 1, attempt =>
    match behavior attempt with
    | .ok => ⟨.success, 1, []⟩
    | .empty =>
      let t := swapGo maxRetries retryDelay behavior fuel (attempt + 1)
      ⟨t.outcome, t.calls + 1, t.sleeps⟩
    | .apiError e =>
      if attempt < maxRetries then
        let t := swapGo maxRetries retryDelay behavior fuel (attempt + 1)
        ⟨t.outcome, t.calls + 1, retryDelay * (attempt : ℚ) :: t.sleeps⟩
      else ⟨.raisedAPI e, 1, []⟩
    | .otherError e => ⟨.raisedOther e, 1, []⟩

/-- `swap_garment`'s retry loop: attempts run from 1 to `maxRetries`. -/
def swap_garment (maxRetries : Nat) (retryDelay : ℚ)
    (behavior : Nat → AttemptResult) : SwapTrace :=
  swapGo maxRetries retryDelay behavior maxRetries 1

theorem swapGo_succ (mr : Nat) (d : ℚ) (b : Nat → AttemptResult) (fuel attempt : Nat) :
    swapGo mr d b (fuel + 1) attempt =
      match b attempt with
      | .ok => ⟨.success, 1, []⟩
      | .empty =>
        let t := swapGo mr d b fuel (attempt + 1)
        ⟨t.outcome, t.calls + 1, t.sleeps⟩
      | .apiError e =>
        if attempt < mr then
          let t := swapGo mr d b fuel (attempt + 1)
          ⟨t.outcome, t.calls + 1, d * (attempt : ℚ) :: t.sleeps⟩
        else ⟨.raisedAPI e, 1, []⟩
      | .otherError e => ⟨.raisedOther e, 1, []⟩ := rfl

theorem swapGo_allApiError (maxRetries : Nat) (retryDelay : ℚ)
    (behavior : Nat → AttemptResult) (err : Nat → Nat)
    (hb : ∀ i, behavior i = .apiError (err i)) :
    ∀ fuel attempt, 1 ≤ fuel → attempt + fuel = maxRetries + 1 →
      swapGo maxRetries retryDelay behavior fuel attempt
        = ⟨.raisedAPI (err maxRetries), fuel,
            (List.range' attempt (fuel - 1)).map fun (i : Nat) => retryDelay * (i : ℚ)⟩ := by
  intro fuel
  induction fuel with
  | zero => intro attempt h; omega
  | succ n ih =>
    intro attempt _ hsum
    by_cases hlt : attempt < maxRetries
    · obtain ⟨m, rfl⟩ : ∃ m, n = m + 1 := ⟨n - 1, by omega⟩
      have hrec := ih (attempt + 1) (by omega) (by omega)
      rw [swapGo_succ, hb attempt]
      dsimp only
      rw [if_pos hlt, hrec]
      simp [List.range'_succ]
    · have ha : attempt = maxRetries := by omega
      have hn : n = 0 := by omega
      subst ha hn
      simp [swapGo, hb attempt, hlt]

theorem swapGo_abortOther (mr : Nat) (d : ℚ) (b : Nat → AttemptResult) (e : Nat) :
    ∀ fuel attempt k, attempt ≤ k → k < attempt + fuel → k ≤ mr →
      (∀ i, attempt ≤ i → i < k → b i = .empty ∨ ∃ ei, b i = .apiError ei) →
      b k = .otherError e →
      (swapGo mr d b fuel attempt).outcome = .raisedOther e
        ∧ (swapGo mr d b fuel attempt).calls = k - attempt + 1 := by
  intro fuel
  induction fuel with
  | zero => intro attempt k h1 h2 _ _ _; omega
  | succ n ih =>
    intro attempt k h1 h2 hkmr hpre hk
    by_cases hak : attempt = k
    · subst hak
      rw [swapGo_succ, hk]
      exact ⟨rfl, by simp⟩
    · have hlt : attempt < k := lt_of_le_of_ne h1 hak
      have ihk := ih (attempt + 1) k (by omega) (by omega) hkmr
        (fun i hi1 hi2 => hpre i (by omega) hi2) hk
      rcases hpre attempt le_rfl hlt with hemp | ⟨ei, hapi⟩
      · constructor
        · rw [swapGo_succ, hemp]
          exact ihk.1
        · rw [swapGo_succ, hemp]
          show (swapGo mr d b n (attempt + 1)).calls + 1 = k - attempt + 1
          rw [ihk.2]
          omega
      · have hamr : attempt < mr := by omega
        constructor
        · rw [swapGo_succ, hapi]
          simp only [if_pos hamr]
          exact ihk.1
        · rw [swapGo_succ, hapi]
          simp only [if_pos hamr]
          show (swapGo mr d b n (attempt + 1)).calls + 1 = k - attempt + 1
          rw [ihk.2]
          omega

theorem swapGo_allEmpty (maxRetries : Nat) (retryDelay : ℚ)
    (behavior : Nat → AttemptResult) (hb : ∀ i, behavior i = .empty) :
    ∀ fuel attempt, swapGo maxRetries retryDelay behavior fuel attempt
      = ⟨.noResult, fuel, []⟩ := by
  intro fuel
  induction fuel with
  | zero => intro attempt; rfl
  | succ n ih => intro attempt; simp [swapGo, hb attempt, ih]

/-- C2: (1) if every attempt raises an `APIError`, `swap_garment` makes exactly
`maxRetries` calls, sleeps `retryDelay * attempt` between consecutive attempts
(attempts 1 .. maxRetries-1), and re-raises the last attempt's error;
(2) a non-`APIError` exception at any reached attempt `k` (the earlier
attempts having returned `None` or raised `APIError`) aborts the run at once:
exactly `k` calls are made and the exception is re-raised. -/
theorem retry_policy :
    (∀ (maxRetries : Nat) (retryDelay : ℚ) (behavior : Nat → AttemptResult)
        (err : Nat → Nat),
      1 ≤ maxRetries → (∀ i, behavior i = .apiError (err i)) →
      swap_garment maxRetries retryDelay behavior
        = ⟨.raisedAPI (err maxRetries), maxRetries,
            (List.range' 1 (maxRetries - 1)).map fun (i : Nat) => retryDelay * (i : ℚ)⟩)
    ∧ (∀ (maxRetries : Nat) (retryDelay : ℚ) (behavior : Nat → AttemptResult)
        (e k : Nat),
      1 ≤ k → k ≤ maxRetries →
      (∀ i, 1 ≤ i → i < k → behavior i = .empty ∨ ∃ ei, behavior i = .apiError ei) →
      behavior k = .otherError e →
      (swap_garment maxRetries retryDelay behavior).outcome = .raisedOther e
        ∧ (swap_garment maxRetries retryDelay behavior).calls = k) := by
  constructor
  · intro maxRetries retryDelay behavior err hmax hb
    exact swapGo_allApiError maxRetries retryDelay behavior err hb maxRetries 1 hmax (by omega)
  · intro maxRetries retryDelay behavior e k hk1 hkmr hpre hk
    have h := swapGo_abortOther maxRetries retryDelay behavior e maxRetries 1 k
      hk1 (by omega) hkmr hpre hk
    refine ⟨h.1, ?_⟩
    show (swapGo maxRetries retryDelay behavior maxRetries 1).calls = k
    rw [h.2]
    omega

/-- Witness for C2 at the default configuration `max_retries = 3`,
`retry_delay = 1`: every attempt failing with `APIError`, and an attempt run
where attempt 1 raises `APIError` and attempt 2 raises a non-`APIError`
exception. -/
theorem retry_policy_witness :
    swap_garment 3 1 (fun i => .apiError i) = ⟨.raisedAPI 3, 3, [1, 2]⟩
    ∧ (swap_garment 3 1 (fun i => if i = 1 then .apiError 5 else .otherError 7)).outcome
        = .raisedOther 7
    ∧ (swap_garment 3 1 (fun i => if i = 1 then .apiError 5 else .otherError 7)).calls
        = 2 := by
  have h2 := retry_policy.2 3 1 (fun i => if i = 1 then .apiError 5 else .otherError 7)
    7 2 (by decide) (by decide)
    (by
      intro i hi1 hi2
      have : i = 1 := by omega
      subst this
      exact Or.inr ⟨5, rfl⟩)
    (by decide)
  refine ⟨?_, h2.1, h2.2⟩
  have h := retry_policy.1 3 1 (fun i => .apiError i) (fun i => i)
    (by decide) (fun i => rfl)
  rw [h]
  simp [List.range']

/-- C1 counterexample: with `max_retries = 3` and every attempt returning an
empty response (`_perform_swap` returns `None`), `swap_garment` makes 3 API
calls, not 1 — an empty response does not stop further attempts. -/
theorem empty_response_is_retried :
    (swap_garment 3 1 (fun _ => .empty)).calls = 3 ∧ (3 : Nat) ≠ 1 := by
  exact ⟨rfl, by decide⟩

/-- C1 amended: an empty response is not surfaced immediately — the loop
silently moves on to the next attempt (with no sleep); when every attempt
produces an empty response, `swap_garment` makes exactly `maxRetries` calls
and then returns `None` (the generic "no image produced" failure), with no
sleeps, and no exception. -/
theorem empty_response_policy (maxRetries : Nat) (retryDelay : ℚ)
    (behavior : Nat → AttemptResult) (hb : ∀ i, behavior i = .empty) :
    swap_garment maxRetries retryDelay behavior = ⟨.noResult, maxRetries, []⟩ :=
  swapGo_allEmpty maxRetries retryDelay behavior hb maxRetries 1

/-- Witness for the amended C1 at the default `max_retries = 3`. -/
theorem empty_response_policy_witness :
    swap_garment 3 1 (fun _ => .empty) = ⟨.noResult, 3, []⟩ :=
  empty_response_policy 3 1 (fun _ => .empty) (fun _ => rfl)

/-! ## Response interpretation — `src/gemini_client.py`

`_perform_swap` lines 209-322 and `generate_ai_model` lines 416-466 decode
the API response.  The response shapes the code distinguishes are modelled
structurally; image bytes are abstracted to `Nat` identifiers.  The typed SDK
candidate always carries the `content` and `finish_reason` attributes (both
possibly `None`), so the `hasattr` guards at lines 215 and 227 are always
taken; a missing `parts` attribute (line 270) is modelled as
`Content.parts = none`. -/

/-- A response part: `part.inline_data` is either absent (`None`/falsy) or
carries image bytes (`inline_data.data`, abstracted to a `Nat`). -/
structure Part where
  inline_data : Option Nat
deriving DecidableEq

/-- Candidate content. `parts = none` models content with no `parts`
attribute; `parts = some l` the ordinary parts list. -/
structure Content where
  parts : Option (List Part)
deriving DecidableEq

/-- A response candidate: possibly-`None` content plus the finish reason
(`none` models a `None` finish reason). -/
structure Candidate where
  content : Option Content
  finish_reason : Option String
deriving DecidableEq

/-- The API response: its candidate list. -/
structure Response where
  candidates : List Candidate
deriving DecidableEq

/-- Does `needle` occur at the start of `hay`? (`List Char` version.) -/
def leadsWith : List Char → List Char → Bool
  | [], _ => true
  | _ :: _, [] => false
  | a :: as, b :: bs => a == b && leadsWith as bs

/-- Does `needle` occur anywhere in `hay`? (`List Char` version.) -/
def containsSeq (needle : List Char) : List Char → Bool
  | [] => leadsWith needle []
  | c :: cs => leadsWith needle (c :: cs) || containsSeq needle cs

/-- Python's `needle in hay` on strings. -/
def strContainsSub (hay needle : String) : Bool :=
  containsSeq needle.data hay.data

/-- `str(finish_reason)` as used at line 232: Python renders `None` as the
string `"None"`. -/
def finishStr : Option String → String
  | some s => s
  | none => "None"

/-- The message of the exception raised at lines 244-250 for a
content-policy block (Python adjacent string literals concatenated). -/
def prohibited_content_message : String :=
  "PROHIBITED_CONTENT: The API blocked this generation due to content policy. This usually means:\n- Images may contain sensitive content\n- Prompt language triggered safety filters\n- Try using different images or simplifying the prompt"

/-- The message of the exception raised at lines 259-262 for a safety
block. -/
def safety_message : String :=
  "SAFETY: Generation was blocked by safety filters. Try using different images or adjusting the prompt."

/-- Observable result of the response-decoding tail of `_perform_swap` or of
`generate_ai_model`: raise `Exception(msg)`, return `None`, or save and
return the path for the first part with inline image data. -/
inductive InterpretOutcome where
  | raiseMsg (msg : String) : InterpretOutcome
  | retNone : InterpretOutcome
  | success (data : Nat) : InterpretOutcome
deriving DecidableEq

/-- `_perform_swap` lines 209-322 after the API call: no candidates →
`None`; first candidate's content `None` → inspect `str(finish_reason)`:
`PROHIBITED_CONTENT` raises, else `IMAGE_OTHER` only logs (falls through to
`None`), else `SAFETY` raises, else `None`; content with no parts attribute →
`None`; otherwise the first part with inline data is the success, and `None`
if there is none. -/
def interpret_swap_response (r : Response) : InterpretOutcome :=
  match r.candidates with
  | [] => .retNone
  | candidate :: _ =>
    match candidate.content with
    | none =>
      let fs := finishStr candidate.finish_reason
      if strContainsSub fs "PROHIBITED_CONTENT" then .raiseMsg prohibited_content_message
      else if strContainsSub fs "IMAGE_OTHER" then .retNone
      else if strContainsSub fs "SAFETY" then .raiseMsg safety_message
      else .retNone
    | some content =>
      match content.parts with
      | none => .retNone
      | some parts =>
        match parts.find? (fun p => p.inline_data.isSome) with
        | some p => .success (p.inline_data.getD 0)
        | none => .retNone

/-- `generate_ai_model` lines 416-466 after the API call: the same shape
walk, but a `None` content only logs the finish reason and returns `None` —
no branch ever raises. -/
def interpret_ai_model_response (r : Response) : InterpretOutcome :=
  match r.candidates with
  | [] => .retNone
  | candidate :: _ =>
    match candidate.content with
    | none => .retNone
    | some content =>
      match content.parts with
      | none => .retNone
      | some parts =>
        match parts.find? (fun p => p.inline_data.isSome) with
        | some p => .success (p.inline_data.getD 0)
        | none => .retNone

/-- C3 counterexample: a candidate with null content and an IMAGE_OTHER
finish reason is not surfaced as a distinct category: `_perform_swap` raises
nothing and returns `None` — the very same outcome as an unrecognized finish
reason (the `RecoverableEmpty` case) — so no caller can see the
"GenerationArtifactError" category for this shape. -/
theorem image_other_not_distinct :
    interpret_swap_response ⟨[⟨none, some "FinishReason.IMAGE_OTHER"⟩]⟩
        = InterpretOutcome.retNone
    ∧ interpret_swap_response ⟨[⟨none, some "FinishReason.IMAGE_OTHER"⟩]⟩
        = interpret_swap_response ⟨[⟨none, some "FinishReason.UNRECOGNIZED"⟩]⟩ := by
  decide

/-- C3 amended: the interpretation mapping of `_perform_swap`, row by row:
no candidates → `None`; null content whose finish reason contains
`PROHIBITED_CONTENT` → raise the content-policy message; null content with
`IMAGE_OTHER` (and no policy token) → `None` (logged only, same outcome as
`RecoverableEmpty`, not a distinct surfaced category); null content with
`SAFETY` (and neither earlier token) → raise the safety message; null content
with any other reason → `None`; content with no parts attribute → `None`;
parts but none with inline data → `None`; otherwise success with the first
inline payload. -/
theorem swap_response_interpretation :
    (interpret_swap_response ⟨[]⟩ = .retNone)
    ∧ (∀ fr : Option String, strContainsSub (finishStr fr) "PROHIBITED_CONTENT" = true →
        interpret_swap_response ⟨[⟨none, fr⟩]⟩ = .raiseMsg prohibited_content_message)
    ∧ (∀ fr : Option String, strContainsSub (finishStr fr) "PROHIBITED_CONTENT" = false →
        strContainsSub (finishStr fr) "IMAGE_OTHER" = true →
        interpret_swap_response ⟨[⟨none, fr⟩]⟩ = .retNone)
    ∧ (∀ fr : Option String, strContainsSub (finishStr fr) "PROHIBITED_CONTENT" = false →
        strContainsSub (finishStr fr) "IMAGE_OTHER" = false →
        strContainsSub (finishStr fr) "SAFETY" = true →
        interpret_swap_response ⟨[⟨none, fr⟩]⟩ = .raiseMsg safety_message)
    ∧ (∀ fr : Option String, strContainsSub (finishStr fr) "PROHIBITED_CONTENT" = false →
        strContainsSub (finishStr fr) "IMAGE_OTHER" = false →
        strContainsSub (finishStr fr) "SAFETY" = false →
        interpret_swap_response ⟨[⟨none, fr⟩]⟩ = .retNone)
    ∧ (∀ (fr : Option String) (rest : List Candidate),
        interpret_swap_response ⟨⟨some ⟨none⟩, fr⟩ :: rest⟩ = .retNone)
    ∧ (∀ (fr : Option String) (rest : List Candidate) (parts : List Part),
        (∀ p ∈ parts, p.inline_data = none) →
        interpret_swap_response ⟨⟨some ⟨some parts⟩, fr⟩ :: rest⟩ = .retNone)
    ∧ (∀ (fr : Option String) (rest : List Candidate) (parts : List Part)
        (d : Nat) (tail : List Part),
        (∀ p ∈ parts, p.inline_data = none) →
        interpret_swap_response ⟨⟨some ⟨some (parts ++ ⟨some d⟩ :: tail)⟩, fr⟩ :: rest⟩
          = .success d) := by
  refine ⟨rfl, ?_, ?_, ?_, ?_, ?_, ?_, ?_⟩
  · intro fr h; simp [interpret_swap_response, h]
  · intro fr h1 h2; simp [interpret_swap_response, h1, h2]
  · intro fr h1 h2 h3; simp [interpret_swap_response, h1, h2, h3]
  · intro fr h1 h2 h3; simp [interpret_swap_response, h1, h2, h3]
  · intro fr rest; simp [interpret_swap_response]
  · intro fr rest parts h
    have hfind : parts.find? (fun p => p.inline_data.isSome) = none := by
      rw [List.find?_eq_none]
      intro p hp
      simp [h p hp]
    simp [interpret_swap_response, hfind]
  · intro fr rest parts d tail h
    have hfind : parts.find? (fun p => p.inline_data.isSome) = none := by
      rw [List.find?_eq_none]
      intro p hp
      simp [h p hp]
    simp [interpret_swap_response, List.find?_append, hfind, List.find?_cons]

/-- Witness for the amended C3 at one concrete response per hypothesized
row. -/
theorem swap_response_interpretation_witness :
    interpret_swap_response ⟨[⟨none, some "FinishReason.PROHIBITED_CONTENT"⟩]⟩
        = .raiseMsg prohibited_content_message
    ∧ interpret_swap_response ⟨[⟨none, some "FinishReason.IMAGE_OTHER"⟩]⟩ = .retNone
    ∧ interpret_swap_response ⟨[⟨none, some "FinishReason.SAFETY"⟩]⟩
        = .raiseMsg safety_message
    ∧ interpret_swap_response ⟨[⟨none, some "FinishReason.STOP"⟩]⟩ = .retNone
    ∧ interpret_swap_response ⟨[⟨some ⟨some [⟨none⟩]⟩, none⟩]⟩ = .retNone
    ∧ interpret_swap_response ⟨[⟨some ⟨some [⟨none⟩, ⟨some 42⟩]⟩, none⟩]⟩ = .success 42 := by
  refine ⟨swap_response_interpretation.2.1 _ (by decide),
          swap_response_interpretation.2.2.1 _ (by decide) (by decide),
          swap_response_interpretation.2.2.2.1 _ (by decide) (by decide) (by decide),
          swap_response_interpretation.2.2.2.2.1 _ (by decide) (by decide) (by decide),
          swap_response_interpretation.2.2.2.2.2.2.1 none [] [⟨none⟩] (by decide),
          ?_⟩
  have h := swap_response_interpretation.2.2.2.2.2.2.2 none [] [⟨none⟩] 42 []
    (by decide)
  simpa using h

/-! ## Input image preparation — `src/gemini_client.py` lines 139-182

Dimensions are `(width, height)` pairs of `Nat`.  The Python resize ratio
`ratio = max_dimension / m; new = (int(w * ratio), int(h * ratio))` is
modelled as the exact rational floor, i.e. `Nat` division `w * c / m`. -/

/-- Image dimensions `(width, height)`. -/
abbrev Dims := Nat × Nat

/-- `max(image.size)`. -/
def maxSide (s : Dims) : Nat := max s.1 s.2

/-- The proportional resize of lines 155-171 / 306-309:
`(int(w * (c / m)), int(h * (c / m)))` with `m = max(size)`. -/
def resizeTo (s : Dims) (c : Nat) : Dims :=
  (s.1 * c / maxSide s, s.2 * c / maxSide s)

/-- Line 141: `max_dimension = 1536 if additional_image else 2048`. -/
def input_ceiling (additional : Option Dims) : Nat :=
  if additional.isSome then 1536 else 2048

/-- Lines 139-171: if any input image exceeds the ceiling, each exceeding
image is resized to it; the others keep their dimensions. -/
def prepare_input_dims (model flatlay : Dims) (additional : Option Dims) :
    Dims × Dims × Option Dims :=
  let maxDim := input_ceiling additional
  let modelMax := maxSide model
  let flatlayMax := maxSide flatlay
  let additionalMax := match additional with | some a => maxSide a | none => 0
  if modelMax > maxDim ∨ flatlayMax > maxDim ∨ additionalMax > maxDim then
    ( if modelMax > maxDim then resizeTo model maxDim else model,
      if flatlayMax > maxDim then resizeTo flatlay maxDim else flatlay,
      match additional with
      | some a => some (if maxSide a > maxDim then resizeTo a maxDim else a)
      | none => none )
  else (model, flatlay, additional)

/-- The per-image conditional resize; `prepare_input_dims` acts as this on
every image (`prepare_input_dims_eq`). -/
def condResize (s : Dims) (c : Nat) : Dims :=
  if maxSide s > c then resizeTo s c else s

theorem prepare_input_dims_eq (model flatlay : Dims) (additional : Option Dims) :
    prepare_input_dims model flatlay additional
      = ( condResize model (input_ceiling additional),
          condResize flatlay (input_ceiling additional),
          additional.map fun a => condResize a (input_ceiling additional) ) := by
  cases additional with
  | none =>
    by_cases h1 : 2048 < maxSide model <;> by_cases h2 : 2048 < maxSide flatlay <;>
      simp [prepare_input_dims, condResize, input_ceiling, h1, h2]
  | some a =>
    by_cases h1 : 1536 < maxSide model <;> by_cases h2 : 1536 < maxSide flatlay <;>
      by_cases h3 : 1536 < maxSide a <;>
        simp [prepare_input_dims, condResize, input_ceiling, h1, h2, h3]

theorem maxSide_resizeTo (s : Dims) (c : Nat) (h : c < maxSide s) :
    maxSide (resizeTo s c) = c := by
  obtain ⟨w, v⟩ := s
  have hm : 0 < max w v := lt_of_le_of_lt (Nat.zero_le c) h
  rcases max_cases w v with ⟨hmax, hle⟩ | ⟨hmax, hlt⟩
  · have hw : w * c / max w v = c := by
      rw [hmax]; exact Nat.mul_div_cancel_left c (hmax ▸ hm)
    have hv : v * c / max w v ≤ c := by
      calc v * c / max w v ≤ w * c / max w v :=
            Nat.div_le_div_right (Nat.mul_le_mul_right c hle)
        _ = c := hw
    show max (w * c / max w v) (v * c / max w v) = c
    rw [hw]
    exact max_eq_left hv
  · have hv : v * c / max w v = c := by
      rw [hmax]; exact Nat.mul_div_cancel_left c (hmax ▸ hm)
    have hw : w * c / max w v ≤ c := by
      calc w * c / max w v ≤ v * c / max w v :=
            Nat.div_le_div_right (Nat.mul_le_mul_right c (Nat.le_of_lt hlt))
        _ = c := hv
    show max (w * c / max w v) (v * c / max w v) = c
    rw [hv]
    exact max_eq_right hw

/-- C4: the input-preparation ceiling is 1536 when a guidance image is
present, 2048 otherwise; each input image whose longest side exceeds the
ceiling becomes its proportional floor-resize, whose longest side equals the
ceiling exactly; each image at or under the ceiling is unchanged. -/
theorem input_ceiling_policy (model flatlay : Dims) (additional : Option Dims) :
    ((additional.isSome = true → input_ceiling additional = 1536)
      ∧ (additional = none → input_ceiling additional = 2048))
    ∧ (input_ceiling additional < maxSide model →
        (prepare_input_dims model flatlay additional).1
            = resizeTo model (input_ceiling additional)
          ∧ maxSide (prepare_input_dims model flatlay additional).1
            = input_ceiling additional)
    ∧ (maxSide model ≤ input_ceiling additional →
        (prepare_input_dims model flatlay additional).1 = model)
    ∧ (input_ceiling additional < maxSide flatlay →
        (prepare_input_dims model flatlay additional).2.1
            = resizeTo flatlay (input_ceiling additional)
          ∧ maxSide (prepare_input_dims model flatlay additional).2.1
            = input_ceiling additional)
    ∧ (maxSide flatlay ≤ input_ceiling additional →
        (prepare_input_dims model flatlay additional).2.1 = flatlay)
    ∧ (∀ a, additional = some a → input_ceiling additional < maxSide a →
        (prepare_input_dims model flatlay additional).2.2
            = some (resizeTo a (input_ceiling additional))
          ∧ maxSide (resizeTo a (input_ceiling additional))
            = input_ceiling additional)
    ∧ (∀ a, additional = some a → maxSide a ≤ input_ceiling additional →
        (prepare_input_dims model flatlay additional).2.2 = some a) := by
  refine ⟨⟨?_, ?_⟩, ?_, ?_, ?_, ?_, ?_, ?_⟩
  · intro h; simp [input_ceiling, h]
  · intro h; simp [input_ceiling, h]
  · intro h
    rw [prepare_input_dims_eq]
    exact ⟨by simp [condResize, h], by simp [condResize, h, maxSide_resizeTo model _ h]⟩
  · intro h
    rw [prepare_input_dims_eq]
    simp [condResize, Nat.not_lt.mpr h]
  · intro h
    rw [prepare_input_dims_eq]
    exact ⟨by simp [condResize, h], by simp [condResize, h, maxSide_resizeTo flatlay _ h]⟩
  · intro h
    rw [prepare_input_dims_eq]
    simp [condResize, Nat.not_lt.mpr h]
  · intro a ha h
    subst ha
    rw [prepare_input_dims_eq]
    exact ⟨by simp [condResize, h], maxSide_resizeTo a _ h⟩
  · intro a ha h
    subst ha
    rw [prepare_input_dims_eq]
    simp [condResize, Nat.not_lt.mpr h]

/-- Witness for C4: with a guidance image, an 1800-px-wide model image (above
1536, below 2048) is resized to a 1536 longest side; without a guidance
image, the same model image is left unchanged. -/
theorem input_ceiling_policy_witness :
    input_ceiling (some (1600, 900)) < maxSide (1800, 1200)
    ∧ (prepare_input_dims (1800, 1200) (1000, 800) (some (1600, 900))).1
        = resizeTo (1800, 1200) (input_ceiling (some (1600, 900)))
    ∧ maxSide (prepare_input_dims (1800, 1200) (1000, 800) (some (1600, 900))).1
        = input_ceiling (some (1600, 900))
    ∧ maxSide (1800, 1200) ≤ input_ceiling none
    ∧ (prepare_input_dims (1800, 1200) (1000, 800) none).1 = (1800, 1200) := by
  have h1 := (input_ceiling_policy (1800, 1200) (1000, 800) (some (1600, 900))).2.1
    (by decide)
  have h2 := (input_ceiling_policy (1800, 1200) (1000, 800) none).2.2.1
    (by decide)
  exact ⟨by decide, h1.1, h1.2, by decide, h2⟩

/-! ## Output post-processing resize — `src/gemini_client.py` lines 302-313 -/

/-- Lines 302-313: when an output-size ceiling is given and positive, a
generated image whose longest side exceeds it is resized down to it; a
smaller or equal image is kept as generated (the `elif` branch only logs). -/
def output_resize (size : Dims) (maxOutputSize : Option Nat) : Dims :=
  match maxOutputSize with
  | none => size
  | some m =>
    if 0 < m then
      if maxSide size > m then resizeTo size m else size
    else size

/-- C6: with a positive output ceiling `m`, a generated image larger than `m`
is saved at its proportional floor-resize whose longest side is exactly `m`;
one at or below `m` keeps the generated dimensions (never upscaled); with no
ceiling the image is untouched. -/
theorem output_ceiling_policy (size : Dims) (m : Nat) (hm : 0 < m) :
    (m < maxSide size →
        output_resize size (some m) = resizeTo size m
          ∧ maxSide (output_resize size (some m)) = m)
    ∧ (maxSide size ≤ m → output_resize size (some m) = size)
    ∧ output_resize size none = size := by
  refine ⟨?_, ?_, rfl⟩
  · intro h
    have he : output_resize size (some m) = resizeTo size m := by
      simp [output_resize, hm, h]
    exact ⟨he, by rw [he]; exact maxSide_resizeTo size m h⟩
  · intro h
    simp [output_resize, hm, Nat.not_lt.mpr h]

/-- Witness for C6 at ceiling 1024: a 2048×1536 generation is saved at
1024×768; an 800×600 generation is saved unchanged. -/
theorem output_ceiling_policy_witness :
    output_resize (2048, 1536) (some 1024) = (1024, 768)
    ∧ output_resize (800, 600) (some 1024) = (800, 600) := by
  constructor
  · have h := (output_ceiling_policy (2048, 1536) 1024 (by decide)).1 (by decide)
    rw [h.1]; decide
  · exact (output_ceiling_policy (800, 600) 1024 (by decide)).2.1 (by decide)

/-! ## Input mode normalization — `src/gemini_client.py` lines 173-182

A pixel carries its red, green, blue and alpha channels (0-255); images
without an alpha band are modelled with alpha 255, palette/grayscale pixels
by their resolved colour.  PIL's `Image.convert("RGB")` — the operation the
code applies — drops the alpha band, keeping each pixel's stored colour
channels without compositing; the code itself demonstrates this by building
an explicit white background with `paste` in the JPEG output path
(lines 292-298) whenever white-flattening is actually wanted. -/

/-- One pixel, channels 0-255. -/
structure Pixel where
  r : Nat
  g : Nat
  b : Nat
  a : Nat
deriving DecidableEq

/-- An in-memory input image: its PIL mode tag and pixel buffer. -/
structure InImage where
  mode : String
  px : List Pixel
deriving DecidableEq

/-- PIL `Image.convert("RGB")` as invoked at lines 176/179/182: the alpha
band is dropped; colour channels are kept unchanged. -/
def convert_rgb (img : InImage) : InImage :=
  ⟨"RGB", img.px.map fun p => ⟨p.r, p.g, p.b, 255⟩⟩

/-- Lines 173-182: convert any image whose mode is not plain RGB. -/
def normalize_mode (img : InImage) : InImage :=
  if img.mode = "RGB" then img else convert_rgb img

/-- Flattening one pixel against a white background, following the spec's
words (for comparison with the code's conversion; not drawn from the code):
`c' = (a*c + (255-a)*255) / 255`. -/
def flatten_white_spec (p : Pixel) : Pixel :=
  ⟨(p.a * p.r + (255 - p.a) * 255) / 255,
   (p.a * p.g + (255 - p.a) * 255) / 255,
   (p.a * p.b + (255 - p.a) * 255) / 255, 255⟩

/-- C5 counterexample: a fully transparent black RGBA pixel.  The input-mode
normalization keeps its stored black colour, while flattening against a
white background would make it white — the pre-API conversion does not
flatten alpha against white. -/
theorem alpha_not_flattened_against_white :
    normalize_mode ⟨"RGBA", [⟨0, 0, 0, 0⟩]⟩ = ⟨"RGB", [⟨0, 0, 0, 255⟩]⟩
    ∧ flatten_white_spec ⟨0, 0, 0, 0⟩ = ⟨255, 255, 255, 255⟩
    ∧ (⟨0, 0, 0, 255⟩ : Pixel) ≠ ⟨255, 255, 255, 255⟩ := by
  refine ⟨?_, by decide, by decide⟩
  rw [normalize_mode, if_neg (by decide)]
  rfl

/-- C5 amended: before the API call every input image whose mode is not
plain RGB is converted to RGB by dropping the alpha channel — each pixel
keeps its stored colour channels (lossless for the colour data, no white
flattening) — and an image already in RGB is left untouched. -/
theorem mode_normalization (img : InImage) :
    (normalize_mode img).mode = "RGB"
    ∧ (img.mode ≠ "RGB" →
        (normalize_mode img).px = img.px.map fun p => ⟨p.r, p.g, p.b, 255⟩)
    ∧ (img.mode = "RGB" → normalize_mode img = img) := by
  refine ⟨?_, ?_, ?_⟩
  · by_cases h : img.mode = "RGB" <;> simp [normalize_mode, convert_rgb, h]
  · intro h; simp [normalize_mode, convert_rgb, h]
  · intro h; simp [normalize_mode, h]

/-- Witness for the amended C5: an RGBA image is converted with alpha
dropped; an RGB image is untouched. -/
theorem mode_normalization_witness :
    ("RGBA" : String) ≠ "RGB"
    ∧ ((normalize_mode ⟨"RGBA", [⟨10, 20, 30, 40⟩]⟩).px
        = ([⟨10, 20, 30, 40⟩] : List Pixel).map fun p => ⟨p.r, p.g, p.b, 255⟩)
    ∧ normalize_mode ⟨"RGB", [⟨1, 2, 3, 255⟩]⟩ = ⟨"RGB", [⟨1, 2, 3, 255⟩]⟩ := by
  refine ⟨by decide, ?_, ?_⟩
  · exact (mode_normalization ⟨"RGBA", [⟨10, 20, 30, 40⟩]⟩).2.1 (by decide)
  · exact (mode_normalization ⟨"RGB", [⟨1, 2, 3, 255⟩]⟩).2.2 rfl

/-! ## Prompt assembly with refinements — `src/app.py` lines 118 and 167-214

`generate` reads `refinements = request.form.get('refinements', '').strip()`
(line 118) and `base_prompt = generate_garment_swap_prompt()` with all
defaults (line 169), then builds `full_prompt`.  To keep every definition
kernel-evaluable, Python string operations are modelled structurally over
`List Char` (the `.data` of a Lean `String`): `str.strip()` with the ASCII
whitespace set, `str.split("\n")`, `str.startswith("#")`, `len`, `[:n]`. -/

/-- ASCII whitespace of Python's `str.strip()`. -/
def isPySpace (c : Char) : Bool :=
  c == ' ' || c == '\t' || c == '\n' || c == '\r' || c == '\x0b' || c == '\x0c'

/-- Python `s.strip()` on a char list. -/
def pyStrip (l : List Char) : List Char :=
  ((l.dropWhile isPySpace).reverse.dropWhile isPySpace).reverse

/-- Python `s.split("\n")` on a char list. -/
def splitLines : List Char → List (List Char)
  | [] => [[]]
  | c :: cs =>
    if c == '\n' then [] :: splitLines cs
    else
      match splitLines cs with
      | [] => [[c]]
      | h :: t => (c :: h) :: t

/-- Python `s.startswith("#")`. -/
def startsWithHash : List Char → Bool
  | [] => false
  | c :: _ => c == '#'

/-- Line 176's filter predicate: keep a line iff `line.strip()` is truthy
and does not start with `'#'`. -/
def keepLine (line : List Char) : Bool :=
  !(pyStrip line).isEmpty && !startsWithHash (pyStrip line)

/-- Lines 174-177: `"\n".join(line for line in refinements.split("\n") if
line.strip() and not line.strip().startswith("#"))`. -/
def clean_refinements (refinements : List Char) : List Char :=
  List.intercalate ['\n'] ((splitLines refinements).filter keepLine)

/-- The combined guidance note used when an additional image accompanies the
refinements (line 193). -/
def combined_note_heading : String :=
  "NOTE: An additional image is provided for guidance. Apply these refinement instructions to guide the generation:"

/-- The plain refinements heading (line 197). -/
def refinements_heading : String := "ADDITIONAL REFINEMENTS:"

/-- The note appended when an additional image is present without
refinements (line 214). -/
def additional_only_note : String :=
  "\n\nNOTE: An additional image is provided. Use it as additional guidance for the generation."

/-- `generate`'s prompt assembly, lines 167-214: from the raw `refinements`
form value (stripped on entry at line 118) and whether an additional image
was uploaded.  Non-empty refinements are comment/blank-filtered; if the
remainder strips to something non-empty it is truncated at 2000 characters
when longer (lines 184-186) and appended stripped (lines 188-199) under the
heading; the guidance-only note is appended when an additional image arrives
without refinement text (line 214). -/
def build_full_prompt (refinementsForm : List Char) (hasAdditional : Bool) : List Char :=
  let basePrompt := (generate_garment_swap_prompt true true true).data
  let refinements := pyStrip refinementsForm
  if refinements ≠ [] then
    let clean := clean_refinements refinements
    if pyStrip clean ≠ [] then
      let capped :=
        if (pyStrip clean).length > 2000 then (pyStrip clean).take 2000 else clean
      basePrompt ++ "\n\n".data
        ++ (if hasAdditional then combined_note_heading.data else refinements_heading.data)
        ++ "\n".data ++ pyStrip capped
    else basePrompt
  else if hasAdditional then basePrompt ++ additional_only_note.data else basePrompt

/-- C8: whenever the refinement text cleans to something non-empty, the full
prompt is exactly the base prompt, a blank line, the heading (the combined
guidance note when an additional image is present, the plain refinements
heading otherwise), and the cleaned refinement text — the newline-join of
exactly the lines that are neither blank nor `'#'`-comments, outer-stripped,
silently truncated to 2000 characters when longer; and the cleaning filter
keeps a line iff its stripped form is non-empty and does not start with
`'#'`, so no comment line reaches the prompt. -/
theorem refinement_inclusion (refinementsForm : List Char) (hasAdditional : Bool)
    (hne : pyStrip (clean_refinements (pyStrip refinementsForm)) ≠ []) :
    (build_full_prompt refinementsForm hasAdditional
        = (generate_garment_swap_prompt true true true).data ++ "\n\n".data
          ++ (if hasAdditional then combined_note_heading.data else refinements_heading.data)
          ++ "\n".data
          ++ (if (pyStrip (clean_refinements (pyStrip refinementsForm))).length > 2000
              then pyStrip ((pyStrip (clean_refinements (pyStrip refinementsForm))).take 2000)
              else pyStrip (clean_refinements (pyStrip refinementsForm))))
    ∧ (clean_refinements (pyStrip refinementsForm)
        = List.intercalate ['\n']
            ((splitLines (pyStrip refinementsForm)).filter keepLine))
    ∧ (∀ line : List Char,
        keepLine line = true
          ↔ pyStrip line ≠ [] ∧ startsWithHash (pyStrip line) = false) := by
  have hr : pyStrip refinementsForm ≠ [] := by
    intro h0
    apply hne
    rw [h0]
    rfl
  refine ⟨?_, rfl, ?_⟩
  · rw [build_full_prompt]
    rw [if_pos hr, if_pos hne]
    by_cases hl : (pyStrip (clean_refinements (pyStrip refinementsForm))).length > 2000
    · rw [if_pos hl, if_pos hl]
    · rw [if_neg hl, if_neg hl]
  · intro line
    simp [keepLine, List.isEmpty_iff, Bool.and_eq_true, Bool.not_eq_true']

/-- Witness for C8 on the spec's example refinement text: the two comment
lines and the blank line are removed, and the surviving line is appended
verbatim under the plain heading. -/
theorem refinement_inclusion_witness :
    pyStrip (clean_refinements (pyStrip ("# note\nmake it longer\n\n# more notes" : String).data)) ≠ []
    ∧ build_full_prompt ("# note\nmake it longer\n\n# more notes" : String).data false
        = (generate_garment_swap_prompt true true true).data ++ "\n\n".data
          ++ refinements_heading.data ++ "\n".data ++ ("make it longer" : String).data := by
  have hclean :
      pyStrip (clean_refinements (pyStrip ("# note\nmake it longer\n\n# more notes" : String).data))
        = ("make it longer" : String).data := by decide
  have hne :
      pyStrip (clean_refinements (pyStrip ("# note\nmake it longer\n\n# more notes" : String).data)) ≠ [] := by
    rw [hclean]; decide
  have h := (refinement_inclusion ("# note\nmake it longer\n\n# more notes" : String).data false hne).1
  refine ⟨hne, ?_⟩
  rw [h, hclean]
  congr 1

/-- C10: `generate_ai_model` returns `None` for every first candidate with
null content, whatever the finish reason — including the policy-block reason
for which `swap_garment`'s `_perform_swap` raises the categorized
content-policy exception — so the two flows interpret the identical response
differently. -/
theorem ai_model_null_content_returns_none :
    (∀ (fr : Option String) (rest : List Candidate),
        interpret_ai_model_response ⟨⟨none, fr⟩ :: rest⟩ = .retNone)
    ∧ interpret_ai_model_response ⟨[⟨none, some "FinishReason.PROHIBITED_CONTENT"⟩]⟩
        = .retNone
    ∧ interpret_swap_response ⟨[⟨none, some "FinishReason.PROHIBITED_CONTENT"⟩]⟩
        = .raiseMsg prohibited_content_message
    ∧ interpret_ai_model_response ⟨[⟨none, some "FinishReason.PROHIBITED_CONTENT"⟩]⟩
        ≠ interpret_swap_response ⟨[⟨none, some "FinishReason.PROHIBITED_CONTENT"⟩]⟩ := by
  refine ⟨fun fr rest => rfl, rfl, by decide, by decide⟩

end ContentCreation
